import Mathlib

/-!
Verification of the login-endpoint handler of `node-clean-api`.

The development shallowly embeds the JavaScript sources:
  - `LoginRouter` (src/unnamed/part_000, the variant taking both an
    authentication use case and an email validator);
  - the `HttpResponse` helper (src/unnamed/part_001);
  - the duck-typed collaborator protocol (`authUseCase.auth`,
    `emailValidator.isValid`), including absent collaborators, absent
    methods, synchronous raises, and promise-valued returns.

JavaScript runtime values are modelled by the inductive type `JsValue`,
with JS truthiness (`truthy`), the `typeof v === 'object'` test
(`typeofIsObject`, under which `null`, arrays and promises are objects),
property access that raises on `null`/`undefined` (`getProp`), and
`await` that unwraps promises and turns a rejection into an exception
(`awaitVal`).  Raised exceptions are modelled by `Option`: `none` means
the computation threw, and `LoginRouter.route`'s surrounding
`try/catch` turns `none` into the server-error response via
`Option.getD`.

The error classes (`MissingParamError`, `InvalidParamError`,
`UnauthorizedError`, `ServerError`) are required by the sources but
their files are not part of the repository snapshot; they are modelled
from the spec as tagged variants carrying the constructor argument
(`vMissingParamError`, `vInvalidParamError`, `vUnauthorizedError`,
`vServerError` below).
-/

namespace NodeCleanApi

/-- A JavaScript runtime value, restricted to the shapes the login
pipeline can encounter.  The four error constructors are modelled from
the spec: the spec's tagged variants MissingField and InvalidField carry
their constructor argument (the field name in the intended use); the
files defining the error classes are absent from the snapshot. -/
inductive JsValue : Type where
  | vUndefined : JsValue
  | vNull : JsValue
  | vBool (b : Bool) : JsValue
  | vNum (n : Int) : JsValue
  | vStr (s : String) : JsValue
  | vObj (fields : List (String × JsValue)) : JsValue
  | vArr (elems : List JsValue) : JsValue
  | vMissingParamError (param : JsValue) : JsValue
  | vInvalidParamError (param : JsValue) : JsValue
  | vUnauthorizedError : JsValue
  | vServerError : JsValue
  | vPromise (outcome : Option JsValue) : JsValue

/-- JS truthiness: `undefined`, `null`, `false`, `0` and `""` are falsy;
every object (including empty objects, arrays and promises) is truthy. -/
def truthy : JsValue → Bool
  | .vUndefined => false
  | .vNull => false
  | .vBool b => b
  | .vNum n => n != 0
  | .vStr s => s != ""
  | _ => true

/-- The test `typeof v === 'object'`.  In JS this is true for plain
objects, arrays, error instances, promises, and — notoriously — `null`;
it is false for `undefined`, booleans, numbers and strings. -/
def typeofIsObject : JsValue → Bool
  | .vNull => true
  | .vObj _ => true
  | .vArr _ => true
  | .vMissingParamError _ => true
  | .vInvalidParamError _ => true
  | .vUnauthorizedError => true
  | .vServerError => true
  | .vPromise _ => true
  | _ => false

/-- Property access `v.k` (also used for destructuring).  Accessing a
property of `undefined` or `null` throws a TypeError (`none`); on a
plain object it yields the named field or `undefined`; on any other
value (string, number, array, ...) it yields `undefined` since none of
those carries the fields this pipeline reads. -/
def getProp : JsValue → String → Option JsValue
  | .vUndefined, _ => none
  | .vNull, _ => none
  | .vObj fields, k => some ((fields.lookup k).getD .vUndefined)
  | _, _ => some .vUndefined

/-- `await v`: a plain value is returned as is; a resolving promise is
unwrapped (recursively, as JS flattens thenables); an awaited rejected
promise throws (`none`). -/
def awaitVal : JsValue → Option JsValue
  | .vPromise (some v) => awaitVal v
  | .vPromise none => none
  | v => some v

/-- The response envelope `{ statusCode, body }`; `body := none` models
an object literal with no `body` property. -/
structure HttpRes where
  statusCode : Nat
  body : Option JsValue

namespace HttpResponse

/-- `HttpResponse.badRequest` (src/unnamed/part_001): wraps its argument
in a `MissingParamError`, whatever that argument is. -/
def badRequest (message : JsValue) : HttpRes :=
  { statusCode := 400, body := some (.vMissingParamError message) }

/-- `HttpResponse.serverError` (src/unnamed/part_001). -/
def serverError : HttpRes :=
  { statusCode := 500, body := some .vServerError }

/-- `HttpResponse.unauthorizedError` (src/unnamed/part_001). -/
def unauthorizedError : HttpRes :=
  { statusCode := 401, body := some .vUnauthorizedError }

/-- `HttpResponse.success` (src/unnamed/part_001): the JS method is
declared with no parameters and returns `{ statusCode: 200 }` only, so
an argument supplied at a call site is discarded and the response has no
`body` property. -/
def success (_data : JsValue) : HttpRes :=
  { statusCode := 200, body := none }

end HttpResponse

/-- Outcome of invoking a collaborator method: it either raises
synchronously or returns a value (which may itself be a promise). -/
inductive MethodResult : Type where
  | throws : MethodResult
  | returns (v : JsValue) : MethodResult

/-- The email-validator collaborator as the router can observe it:
absent entirely, an object lacking `isValid`, or an object with an
`isValid` function. -/
inductive EmailValidator : Type where
  | absent : EmailValidator
  | noMethod : EmailValidator
  | withIsValid (f : JsValue → MethodResult) : EmailValidator

/-- The authentication-use-case collaborator: absent, lacking `auth`,
or providing an `auth` function of two arguments. -/
inductive AuthUseCase : Type where
  | absent : AuthUseCase
  | noMethod : AuthUseCase
  | withAuth (f : JsValue → JsValue → MethodResult) : AuthUseCase

/-- Evaluating `this.emailValidator.isValid(email)`: a TypeError is
raised when the collaborator is absent (property access on `undefined`)
or when it lacks the method (calling `undefined`). -/
def callIsValid : EmailValidator → JsValue → MethodResult
  | .absent, _ => .throws
  | .noMethod, _ => .throws
  | .withIsValid f, e => f e

/-- Evaluating `this.authUseCase.auth(email, password)`, with the same
TypeError cases as `callIsValid`. -/
def callAuth : AuthUseCase → JsValue → JsValue → MethodResult
  | .absent, _, _ => .throws
  | .noMethod, _, _ => .throws
  | .withAuth f, e, p => f e p

/-- The `try` block of `LoginRouter.route` (src/unnamed/part_000).
`none` means an exception escaped the block and reaches the `catch`.
The branch structure mirrors the source line by line:
`typeof httpRequest.body !== 'object'` guard, destructuring of `email`
and `password` (which throws when `body` is `null`), the email presence
check, the unawaited `isValid` call, the password presence check, the
awaited `auth` call, and the token truthiness check. -/
def routeTry (authUseCase : AuthUseCase) (emailValidator : EmailValidator)
    (httpRequest : JsValue) : Option HttpRes :=
  match getProp httpRequest "body" with
  | none => none
  | some body =>
    if !typeofIsObject body then
      some HttpResponse.serverError
    else
      match getProp body "email", getProp body "password" with
      | none, _ => none
      | some _, none => none
      | some email, some password =>
        if !truthy email then
          some (HttpResponse.badRequest (.vMissingParamError (.vStr "email")))
        else
          match callIsValid emailValidator email with
          | .throws => none
          | .returns isValidRes =>
            if !truthy isValidRes then
              some (HttpResponse.badRequest (.vInvalidParamError (.vStr "email")))
            else if !truthy password then
              some (HttpResponse.badRequest (.vMissingParamError (.vStr "password")))
            else
              match callAuth authUseCase email password with
              | .throws => none
              | .returns authRet =>
                match awaitVal authRet with
                | none => none
                | some accessToken =>
                  if !truthy accessToken then
                    some HttpResponse.unauthorizedError
                  else
                    some (HttpResponse.success (.vObj [("accessToken", accessToken)]))

/-- The `LoginRouter` instance state: the two collaborator references
assigned once by the constructor. -/
structure LoginRouter : Type where
  authUseCase : AuthUseCase
  emailValidator : EmailValidator

/-- `LoginRouter.route`: the `try` block with the `catch` clause mapping
any escaped exception to `HttpResponse.serverError`.  The second
component of the result is the instance state after the call; the
method body contains no assignment to `this`, so the state is returned
unchanged. -/
def LoginRouter.route (st : LoginRouter) (httpRequest : JsValue) :
    HttpRes × LoginRouter :=
  ((routeTry st.authUseCase st.emailValidator httpRequest).getD
      HttpResponse.serverError,
   st)

/-- The response of a single call on a freshly constructed router. -/
def routeResp (a : AuthUseCase) (ev : EmailValidator) (req : JsValue) : HttpRes :=
  ((LoginRouter.mk a ev).route req).1

/-- A request envelope with the given body value. -/
def reqWithBody (b : JsValue) : JsValue :=
  .vObj [("body", b)]

/-- An email validator whose `isValid` always returns the boolean `b`. -/
def validatorConst (b : Bool) : EmailValidator :=
  .withIsValid (fun _ => .returns (.vBool b))

/-- An auth use case whose `auth` always returns the value `v`. -/
def authConst (v : JsValue) : AuthUseCase :=
  .withAuth (fun _ _ => .returns v)

/-! ### Path lemmas

Each lemma pins down the response of `route` on one branch of the
pipeline, for an arbitrary record body and arbitrary collaborators. -/

lemma getProp_reqWithBody (b : JsValue) : getProp (reqWithBody b) "body" = some b := rfl

lemma getProp_vObj (fields : List (String × JsValue)) (k : String) :
    getProp (.vObj fields) k = some ((fields.lookup k).getD .vUndefined) := rfl

lemma routeResp_eq_getD (a : AuthUseCase) (ev : EmailValidator) (req : JsValue) :
    routeResp a ev req = (routeTry a ev req).getD HttpResponse.serverError := rfl

lemma routeResp_missing_email (a : AuthUseCase) (ev : EmailValidator)
    (fields : List (String × JsValue)) (e : JsValue)
    (he : getProp (.vObj fields) "email" = some e) (hte : truthy e = false) :
    routeResp a ev (reqWithBody (.vObj fields)) =
      HttpResponse.badRequest (.vMissingParamError (.vStr "email")) := by
  have he' : (fields.lookup "email").getD .vUndefined = e := by
    rw [getProp_vObj] at he
    exact Option.some.inj he
  subst he'
  rw [routeResp_eq_getD]
  simp only [routeTry, getProp_reqWithBody, getProp_vObj, typeofIsObject,
    Bool.not_true, Bool.false_eq_true, if_false, hte]
  rfl

lemma routeResp_email_present (a : AuthUseCase) (ev : EmailValidator)
    (fields : List (String × JsValue)) (e : JsValue)
    (he : getProp (.vObj fields) "email" = some e) (hte : truthy e = true) :
    routeResp a ev (reqWithBody (.vObj fields)) =
      (match callIsValid ev e with
       | .throws => HttpResponse.serverError
       | .returns isValidRes =>
         if !truthy isValidRes then
           HttpResponse.badRequest (.vInvalidParamError (.vStr "email"))
         else if !truthy ((fields.lookup "password").getD .vUndefined) then
           HttpResponse.badRequest (.vMissingParamError (.vStr "password"))
         else
           match callAuth a e ((fields.lookup "password").getD .vUndefined) with
           | .throws => HttpResponse.serverError
           | .returns authRet =>
             match awaitVal authRet with
             | none => HttpResponse.serverError
             | some accessToken =>
               if !truthy accessToken then HttpResponse.unauthorizedError
               else HttpResponse.success (.vObj [("accessToken", accessToken)])) := by
  have he' : (fields.lookup "email").getD .vUndefined = e := by
    rw [getProp_vObj] at he
    exact Option.some.inj he
  subst he'
  rw [routeResp_eq_getD]
  simp only [routeTry, getProp_reqWithBody, getProp_vObj, typeofIsObject,
    Bool.not_true, Bool.false_eq_true, if_false, hte]
  cases callIsValid ev ((fields.lookup "email").getD .vUndefined) with
  | throws => rfl
  | returns isValidRes =>
    cases htv : truthy isValidRes with
    | false => simp [htv]
    | true =>
      simp only [htv, Bool.not_true, Bool.false_eq_true, if_false]
      cases htp : truthy ((fields.lookup "password").getD .vUndefined) with
      | false => simp [htp]
      | true =>
        simp only [htp, Bool.not_true, Bool.false_eq_true, if_false]
        cases callAuth a ((fields.lookup "email").getD .vUndefined)
            ((fields.lookup "password").getD .vUndefined) with
        | throws => rfl
        | returns authRet =>
          cases ha : awaitVal authRet with
          | none => simp [ha]
          | some accessToken =>
            cases htt : truthy accessToken with
            | false => simp [ha, htt]
            | true => simp [ha, htt]

lemma routeResp_validator_fault (a : AuthUseCase) (ev : EmailValidator)
    (fields : List (String × JsValue)) (e : JsValue)
    (he : getProp (.vObj fields) "email" = some e) (hte : truthy e = true)
    (hv : callIsValid ev e = .throws) :
    routeResp a ev (reqWithBody (.vObj fields)) = HttpResponse.serverError := by
  rw [routeResp_email_present a ev fields e he hte, hv]

lemma routeResp_invalid_email (a : AuthUseCase) (ev : EmailValidator)
    (fields : List (String × JsValue)) (e w : JsValue)
    (he : getProp (.vObj fields) "email" = some e) (hte : truthy e = true)
    (hv : callIsValid ev e = .returns w) (htw : truthy w = false) :
    routeResp a ev (reqWithBody (.vObj fields)) =
      HttpResponse.badRequest (.vInvalidParamError (.vStr "email")) := by
  rw [routeResp_email_present a ev fields e he hte, hv]
  simp [htw]

lemma routeResp_auth_stage (a : AuthUseCase) (ev : EmailValidator)
    (fields : List (String × JsValue)) (e p w : JsValue)
    (he : getProp (.vObj fields) "email" = some e) (hte : truthy e = true)
    (hv : callIsValid ev e = .returns w) (htw : truthy w = true)
    (hp : getProp (.vObj fields) "password" = some p) (htp : truthy p = true) :
    routeResp a ev (reqWithBody (.vObj fields)) =
      (match callAuth a e p with
       | .throws => HttpResponse.serverError
       | .returns authRet =>
         match awaitVal authRet with
         | none => HttpResponse.serverError
         | some accessToken =>
           if !truthy accessToken then HttpResponse.unauthorizedError
           else HttpResponse.success (.vObj [("accessToken", accessToken)])) := by
  have hp' : (fields.lookup "password").getD .vUndefined = p := by
    rw [getProp_vObj] at hp
    exact Option.some.inj hp
  subst hp'
  rw [routeResp_email_present a ev fields e he hte, hv]
  simp [htw, htp]

lemma routeResp_statusCode_cases (a : AuthUseCase) (ev : EmailValidator) (req : JsValue) :
    (routeResp a ev req).statusCode = 200 ∨ (routeResp a ev req).statusCode = 400 ∨
    (routeResp a ev req).statusCode = 401 ∨ (routeResp a ev req).statusCode = 500 := by
  rw [routeResp_eq_getD]
  unfold routeTry
  cases getProp req "body" with
  | none => simp [HttpResponse.serverError]
  | some body =>
    cases hto : typeofIsObject body with
    | false => simp [hto, HttpResponse.serverError]
    | true =>
      simp only [hto, Bool.not_true, Bool.false_eq_true, if_false]
      cases getProp body "email" with
      | none => simp [HttpResponse.serverError]
      | some email =>
        cases getProp body "password" with
        | none => simp [HttpResponse.serverError]
        | some password =>
          cases hte : truthy email with
          | false => simp [hte, HttpResponse.badRequest]
          | true =>
            simp only [hte, Bool.not_true, Bool.false_eq_true, if_false]
            cases callIsValid ev email with
            | throws => simp [HttpResponse.serverError]
            | returns isValidRes =>
              cases htv : truthy isValidRes with
              | false => simp [htv, HttpResponse.badRequest]
              | true =>
                simp only [htv, Bool.not_true, Bool.false_eq_true, if_false]
                cases htp : truthy password with
                | false => simp [htp, HttpResponse.badRequest]
                | true =>
                  simp only [htp, Bool.not_true, Bool.false_eq_true, if_false]
                  cases callAuth a email password with
                  | throws => simp [HttpResponse.serverError]
                  | returns authRet =>
                    cases ha : awaitVal authRet with
                    | none => simp [ha, HttpResponse.serverError]
                    | some accessToken =>
                      cases htt : truthy accessToken with
                      | false => simp [ha, htt, HttpResponse.unauthorizedError]
                      | true => simp [ha, htt, HttpResponse.success]

/-! ### Claim theorems -/

/-- Claim C1: the claim states that a valid request whose authenticator
yields token T gets a 200 response with body carrying T.  The code
contradicts it: `HttpResponse.success` is declared with no parameters
and returns only a status code, so the router's `success({accessToken})`
call discards the token and the 200 response has no body at all. -/
theorem success_response_has_no_token_body :
    routeResp (authConst (.vStr "tok123")) (validatorConst true)
      (reqWithBody (.vObj [("email", .vStr "a@b.com"), ("password", .vStr "p")])) =
      { statusCode := 200, body := none } ∧
    routeResp (authConst (.vStr "tok123")) (validatorConst true)
      (reqWithBody (.vObj [("email", .vStr "a@b.com"), ("password", .vStr "p")])) ≠
      { statusCode := 200,
        body := some (.vObj [("accessToken", .vStr "tok123")]) } :=
  ⟨rfl, fun h => Option.noConfusion (congrArg HttpRes.body h)⟩

/-- Claim C2: the claim states the 400 bodies distinguish the missing
and invalid error kinds.  The code contradicts it:
`HttpResponse.badRequest` wraps every argument in a `MissingParamError`,
so the invalid-email response's body has outer kind missing (wrapping
the `InvalidParamError`), the same outer kind as the missing-email
response, and not the `InvalidParamError("email")` body the repository's
own test expects. -/
theorem badRequest_collapses_error_kinds :
    routeResp (authConst (.vStr "tok123")) (validatorConst false)
      (reqWithBody (.vObj [("email", .vStr "a@b.com"), ("password", .vStr "p")])) =
      { statusCode := 400,
        body := some (.vMissingParamError (.vInvalidParamError (.vStr "email"))) } ∧
    routeResp (authConst (.vStr "tok123")) (validatorConst true)
      (reqWithBody (.vObj [("password", .vStr "p")])) =
      { statusCode := 400,
        body := some (.vMissingParamError (.vMissingParamError (.vStr "email"))) } ∧
    (some (.vMissingParamError (.vInvalidParamError (.vStr "email"))) : Option JsValue) ≠
      some (.vInvalidParamError (.vStr "email")) :=
  ⟨rfl, rfl, fun h => JsValue.noConfusion (Option.some.inj h)⟩

/-- Claim C3 counterexample: a request whose body is an array does NOT
produce the claimed 500 response; in JS `typeof [] === 'object'`, so an
array body passes the shape check, its `email` property is `undefined`,
and the router answers 400 missing-email. -/
theorem array_body_is_not_server_error :
    (routeResp (authConst .vNull) (validatorConst true)
        (reqWithBody (.vArr []))).statusCode = 400 ∧
    (routeResp (authConst .vNull) (validatorConst true)
        (reqWithBody (.vArr []))).statusCode ≠ 500 :=
  ⟨rfl, fun h => absurd h (by decide)⟩

/-- Claim C3 (amended): an absent request, an absent `body` field, and a
body whose JS typeof is not object (string, number, boolean, undefined)
all yield the 500 internal-failure response; a `null` body also yields
500 (destructuring throws, caught by the handler); but an array body is
treated as a record with no fields and yields the 400 missing-email
response instead. -/
theorem malformed_body_handling (a : AuthUseCase) (ev : EmailValidator) (b : JsValue) :
    (typeofIsObject b = false →
      routeResp a ev (reqWithBody b) = HttpResponse.serverError) ∧
    routeResp a ev .vUndefined = HttpResponse.serverError ∧
    routeResp a ev (.vObj []) = HttpResponse.serverError ∧
    routeResp a ev (reqWithBody .vNull) = HttpResponse.serverError ∧
    ∀ l : List JsValue,
      routeResp a ev (reqWithBody (.vArr l)) =
        HttpResponse.badRequest (.vMissingParamError (.vStr "email")) := by
  refine ⟨?_, rfl, rfl, rfl, fun l => rfl⟩
  intro h
  rw [routeResp_eq_getD]
  simp [routeTry, getProp_reqWithBody, h]

/-- Witness for `malformed_body_handling` at a string body. -/
theorem malformed_body_handling_witness :
    routeResp .absent .absent (reqWithBody (.vStr "oops")) = HttpResponse.serverError :=
  (malformed_body_handling .absent .absent (.vStr "oops")).1 rfl

/-- Claim C4 counterexample: the router does not await `isValid`, so a
validator that returns its `false` verdict wrapped in a promise is seen
as a truthy value and treated as a valid email (the request proceeds to
a 200), while the same verdict returned synchronously produces the 400
invalid-email response.  The two responses differ. -/
theorem async_validator_not_equiv_sync :
    (routeResp (authConst (.vStr "tok123"))
        (.withIsValid fun _ => .returns (.vPromise (some (.vBool false))))
        (reqWithBody (.vObj [("email", .vStr "a@b.com"),
          ("password", .vStr "p")]))).statusCode = 200 ∧
    (routeResp (authConst (.vStr "tok123"))
        (.withIsValid fun _ => .returns (.vBool false))
        (reqWithBody (.vObj [("email", .vStr "a@b.com"),
          ("password", .vStr "p")]))).statusCode = 400 ∧
    routeResp (authConst (.vStr "tok123"))
        (.withIsValid fun _ => .returns (.vPromise (some (.vBool false))))
        (reqWithBody (.vObj [("email", .vStr "a@b.com"), ("password", .vStr "p")])) ≠
      routeResp (authConst (.vStr "tok123"))
        (.withIsValid fun _ => .returns (.vBool false))
        (reqWithBody (.vObj [("email", .vStr "a@b.com"), ("password", .vStr "p")])) :=
  ⟨rfl, rfl, fun h => absurd (congrArg HttpRes.statusCode h) (by decide)⟩

/-- Claim C4 (amended): the router never awaits the validator's verdict;
since every promise object is truthy, a validator returning its verdict
asynchronously behaves exactly like a validator synchronously returning
`true` — for every request and authenticator the responses coincide —
rather than like its resolved boolean. -/
theorem unawaited_promise_validator_acts_as_true
    (a : AuthUseCase) (req : JsValue) (f g : JsValue → MethodResult)
    (hf : ∀ e, ∃ w, f e = .returns (.vPromise w))
    (hg : ∀ e, g e = .returns (.vBool true)) :
    routeResp a (.withIsValid f) req = routeResp a (.withIsValid g) req := by
  rw [routeResp_eq_getD, routeResp_eq_getD]
  unfold routeTry
  cases getProp req "body" with
  | none => rfl
  | some body =>
    cases hto : typeofIsObject body with
    | false => simp [hto]
    | true =>
      simp only [hto, Bool.not_true, Bool.false_eq_true, if_false]
      cases getProp body "email" with
      | none => rfl
      | some email =>
        cases getProp body "password" with
        | none => rfl
        | some password =>
          cases hte : truthy email with
          | false => simp [hte]
          | true =>
            simp only [hte, Bool.not_true, Bool.false_eq_true, if_false]
            obtain ⟨w, hw⟩ := hf email
            simp [callIsValid, hw, hg email, truthy]

/-- Witness for `unawaited_promise_validator_acts_as_true`. -/
theorem unawaited_promise_validator_acts_as_true_witness :
    routeResp (authConst (.vStr "tok123"))
      (.withIsValid fun _ => .returns (.vPromise (some (.vBool false))))
      (reqWithBody (.vObj [("email", .vStr "a@b.com"), ("password", .vStr "p")])) =
    routeResp (authConst (.vStr "tok123"))
      (.withIsValid fun _ => .returns (.vBool true))
      (reqWithBody (.vObj [("email", .vStr "a@b.com"), ("password", .vStr "p")])) :=
  unawaited_promise_validator_acts_as_true _ _ _ _
    (fun _ => ⟨some (.vBool false), rfl⟩) (fun _ => rfl)

/-- Claim C5: the checks run in the fixed source order and the earliest
failing one wins: an invalid email together with a missing password
yields the invalid-email 400 response (regardless of the authenticator),
and a missing or empty email yields the missing-email 400 response for
every validator and authenticator configuration, never a 500. -/
theorem checks_run_in_fixed_order :
    (∀ (a : AuthUseCase) (f : JsValue → MethodResult)
        (fields : List (String × JsValue)) (e p : JsValue),
        getProp (.vObj fields) "email" = some e → truthy e = true →
        f e = .returns (.vBool false) →
        getProp (.vObj fields) "password" = some p → truthy p = false →
        routeResp a (.withIsValid f) (reqWithBody (.vObj fields)) =
          HttpResponse.badRequest (.vInvalidParamError (.vStr "email"))) ∧
    (∀ (a : AuthUseCase) (ev : EmailValidator)
        (fields : List (String × JsValue)) (e : JsValue),
        getProp (.vObj fields) "email" = some e → truthy e = false →
        routeResp a ev (reqWithBody (.vObj fields)) =
          HttpResponse.badRequest (.vMissingParamError (.vStr "email"))) := by
  constructor
  · intro a f fields e p he hte hf hp htp
    exact routeResp_invalid_email a _ fields e (.vBool false) he hte hf rfl
  · intro a ev fields e he hte
    exact routeResp_missing_email a ev fields e he hte

/-- Witness for `checks_run_in_fixed_order`: an invalid email with a
missing password and an absent authenticator reports invalid-email; an
absent email with absent collaborators reports missing-email. -/
theorem checks_run_in_fixed_order_witness :
    routeResp .absent (.withIsValid fun _ => .returns (.vBool false))
      (reqWithBody (.vObj [("email", .vStr "not-an-email")])) =
      HttpResponse.badRequest (.vInvalidParamError (.vStr "email")) ∧
    routeResp .absent .absent (reqWithBody (.vObj [("password", .vStr "p")])) =
      HttpResponse.badRequest (.vMissingParamError (.vStr "email")) :=
  ⟨checks_run_in_fixed_order.1 .absent _ [("email", .vStr "not-an-email")]
      (.vStr "not-an-email") .vUndefined rfl rfl rfl rfl rfl,
   checks_run_in_fixed_order.2 .absent .absent [("password", .vStr "p")]
      .vUndefined rfl rfl⟩

/-- Claim C6: the handler is total — every call produces a response
envelope with one of the four status codes — and every collaborator
fault (absent collaborator, missing method, synchronous raise, or, for
the authenticator, an asynchronous rejection) reached by the pipeline is
converted to the 500 internal-failure response. -/
theorem route_never_propagates_faults :
    (∀ (a : AuthUseCase) (ev : EmailValidator) (req : JsValue),
        (routeResp a ev req).statusCode = 200 ∨
        (routeResp a ev req).statusCode = 400 ∨
        (routeResp a ev req).statusCode = 401 ∨
        (routeResp a ev req).statusCode = 500) ∧
    (∀ (a : AuthUseCase) (ev : EmailValidator)
        (fields : List (String × JsValue)) (e : JsValue),
        getProp (.vObj fields) "email" = some e → truthy e = true →
        callIsValid ev e = .throws →
        routeResp a ev (reqWithBody (.vObj fields)) = HttpResponse.serverError) ∧
    (∀ (a : AuthUseCase) (ev : EmailValidator)
        (fields : List (String × JsValue)) (e p w : JsValue),
        getProp (.vObj fields) "email" = some e → truthy e = true →
        callIsValid ev e = .returns w → truthy w = true →
        getProp (.vObj fields) "password" = some p → truthy p = true →
        (callAuth a e p = .throws ∨
          ∃ v, callAuth a e p = .returns v ∧ awaitVal v = none) →
        routeResp a ev (reqWithBody (.vObj fields)) = HttpResponse.serverError) := by
  refine ⟨routeResp_statusCode_cases, ?_, ?_⟩
  · intro a ev fields e he hte hv
    exact routeResp_validator_fault a ev fields e he hte hv
  · intro a ev fields e p w he hte hv htw hp htp hfault
    rw [routeResp_auth_stage a ev fields e p w he hte hv htw hp htp]
    rcases hfault with h | ⟨v, hv2, hav⟩
    · rw [h]
    · rw [hv2]
      simp [hav]

/-- Witness for `route_never_propagates_faults`: a validator object
lacking `isValid` and an authenticator whose promise rejects both give
the 500 response. -/
theorem route_never_propagates_faults_witness :
    routeResp .noMethod .noMethod
      (reqWithBody (.vObj [("email", .vStr "a@b.com"), ("password", .vStr "p")])) =
      HttpResponse.serverError ∧
    routeResp (authConst (.vPromise none)) (validatorConst true)
      (reqWithBody (.vObj [("email", .vStr "a@b.com"), ("password", .vStr "p")])) =
      HttpResponse.serverError :=
  ⟨route_never_propagates_faults.2.1 .noMethod .noMethod
      [("email", .vStr "a@b.com"), ("password", .vStr "p")] (.vStr "a@b.com")
      rfl rfl rfl,
   route_never_propagates_faults.2.2 (authConst (.vPromise none))
      (validatorConst true)
      [("email", .vStr "a@b.com"), ("password", .vStr "p")]
      (.vStr "a@b.com") (.vStr "p") (.vBool true)
      rfl rfl rfl rfl rfl rfl (Or.inr ⟨.vPromise none, rfl, rfl⟩)⟩

/-- Claim C7: when every validation check passes and the authenticator
yields a falsy access token (directly or through a resolving promise),
the response is the 401 unauthorized envelope, not a 500. -/
theorem falsy_token_unauthorized (a : AuthUseCase) (ev : EmailValidator)
    (fields : List (String × JsValue)) (e p w v t : JsValue)
    (he : getProp (.vObj fields) "email" = some e) (hte : truthy e = true)
    (hv : callIsValid ev e = .returns w) (htw : truthy w = true)
    (hp : getProp (.vObj fields) "password" = some p) (htp : truthy p = true)
    (ha : callAuth a e p = .returns v) (hav : awaitVal v = some t)
    (htt : truthy t = false) :
    routeResp a ev (reqWithBody (.vObj fields)) = HttpResponse.unauthorizedError ∧
    (routeResp a ev (reqWithBody (.vObj fields))).statusCode = 401 := by
  have hmain : routeResp a ev (reqWithBody (.vObj fields)) =
      HttpResponse.unauthorizedError := by
    rw [routeResp_auth_stage a ev fields e p w he hte hv htw hp htp, ha]
    simp [hav, htt]
  exact ⟨hmain, by rw [hmain]; rfl⟩

/-- Witness for `falsy_token_unauthorized` with a `null` token. -/
theorem falsy_token_unauthorized_witness :
    routeResp (authConst .vNull) (validatorConst true)
      (reqWithBody (.vObj [("email", .vStr "a@b.com"), ("password", .vStr "p")])) =
      HttpResponse.unauthorizedError :=
  (falsy_token_unauthorized (authConst .vNull) (validatorConst true)
    [("email", .vStr "a@b.com"), ("password", .vStr "p")]
    (.vStr "a@b.com") (.vStr "p") (.vBool true) .vNull .vNull
    rfl rfl rfl rfl rfl rfl rfl rfl rfl).1

/-- Claim C8: a record body whose `email` is absent or falsy always
yields the 400 missing-email response, for every choice of the other
body fields and of the two collaborators. -/
theorem missing_email_always_bad_request (a : AuthUseCase) (ev : EmailValidator)
    (fields : List (String × JsValue)) (e : JsValue)
    (he : getProp (.vObj fields) "email" = some e) (hte : truthy e = false) :
    routeResp a ev (reqWithBody (.vObj fields)) =
      HttpResponse.badRequest (.vMissingParamError (.vStr "email")) ∧
    (routeResp a ev (reqWithBody (.vObj fields))).statusCode = 400 := by
  have h := routeResp_missing_email a ev fields e he hte
  exact ⟨h, by rw [h]; rfl⟩

/-- Witness for `missing_email_always_bad_request` at an empty email. -/
theorem missing_email_always_bad_request_witness :
    routeResp .absent .absent
      (reqWithBody (.vObj [("email", .vStr ""), ("password", .vStr "p")])) =
      HttpResponse.badRequest (.vMissingParamError (.vStr "email")) :=
  (missing_email_always_bad_request .absent .absent
    [("email", .vStr ""), ("password", .vStr "p")] (.vStr "") rfl rfl).1

/-- Claim C9: `route` is deterministic and stateless: the call returns
the instance state unchanged, and a second call on the resulting
instance with the same request yields an identical response. -/
theorem route_stateless_idempotent (st : LoginRouter) (req : JsValue) :
    (st.route req).2 = st ∧
    (st.route req).1 = ((st.route req).2.route req).1 :=
  ⟨rfl, rfl⟩

/-- Claim C10: the handler applies only truthiness to the credential
fields: for any truthy `email` and `password` values of any JS type, the
presence checks pass and the rest of the pipeline depends only on the
validator's value at exactly `email` and the authenticator's value at
exactly `(email, password)` — both values forwarded unchanged. -/
theorem truthy_credentials_forwarded_unchanged
    (e p : JsValue) (f : JsValue → MethodResult)
    (g : JsValue → JsValue → MethodResult)
    (hte : truthy e = true) (htp : truthy p = true) :
    routeResp (.withAuth g) (.withIsValid f)
      (reqWithBody (.vObj [("email", e), ("password", p)])) =
      (match f e with
       | .throws => HttpResponse.serverError
       | .returns w =>
         if !truthy w then
           HttpResponse.badRequest (.vInvalidParamError (.vStr "email"))
         else
           match g e p with
           | .throws => HttpResponse.serverError
           | .returns authRet =>
             match awaitVal authRet with
             | none => HttpResponse.serverError
             | some accessToken =>
               if !truthy accessToken then HttpResponse.unauthorizedError
               else HttpResponse.success (.vObj [("accessToken", accessToken)])) := by
  cases hf : f e with
  | throws =>
    exact routeResp_validator_fault _ _ _ e rfl hte hf
  | returns w =>
    cases htw : truthy w with
    | false =>
      rw [routeResp_invalid_email (.withAuth g) (.withIsValid f)
        [("email", e), ("password", p)] e w rfl hte hf htw]
      simp [htw]
    | true =>
      rw [routeResp_auth_stage (.withAuth g) (.withIsValid f)
        [("email", e), ("password", p)] e p w rfl hte hf htw rfl htp]
      simp [htw, callAuth]

/-- Witness for `truthy_credentials_forwarded_unchanged` with a numeric
email and an object password. -/
theorem truthy_credentials_forwarded_unchanged_witness :
    routeResp (.withAuth fun e p => .returns (.vObj [("checked", e), ("with", p)]))
      (.withIsValid fun e => .returns e)
      (reqWithBody (.vObj [("email", .vNum 7), ("password", .vObj [])])) =
      HttpResponse.success (.vObj [("accessToken",
        .vObj [("checked", .vNum 7), ("with", .vObj [])])]) := by
  rw [truthy_credentials_forwarded_unchanged (.vNum 7) (.vObj []) _ _ rfl rfl]
  rfl

end NodeCleanApi
